import Mathlib

/-!
Verification development for the claim-verification and fact-checking
subsystem of the Bharat_AI regional-language fake-news detection
pipeline.  Shallow embedding of:

  * `fact_check.py`  — news search with budget accounting, provider
    fallback, article fetching and the per-claim processing loop
    (`process_claims`, `run_fact_checking_process`);
  * `main4.py`       — `search_single_api` (single-provider search with
    failover on 429/403), `truncate_text_for_tokens`;
  * `main5.py`       — `extract_classification`, `classify_claim_with_llm`,
    `process_claims_with_llm`, `run_llm_classification_process`;
  * `main6.py`       — `truncate_text_to_tokens`, `count_tokens`,
    `extract_article_content`, label/explanation extraction inside
    `classify_claim_with_gemini`.

External effects (HTTP responses, the HTML article fetcher, the
tokenizer, the generative backends, the file system and the clock) are
passed in as explicit oracle parameters; every network request made by
the embedded code is recorded in a trace or counter so that budget and
isolation properties can be stated exactly.
-/

namespace Py

/-- ASCII fragment of Python's `\s` (re whitespace class). -/
def pyIsSpace (c : Char) : Bool :=
  c == ' ' || c == '\t' || c == '\n' || c == '\r' || c == '\x0b' || c == '\x0c'

/-- ASCII fragment of Python's `\w` (word characters: alphanumeric plus underscore). -/
def pyIsWordChar (c : Char) : Bool := c.isAlphanum || c == '_'

/-- Python's `re.sub(r'\s+', ' ', s)`: every maximal whitespace run becomes one space. -/
def collapseWS : List Char → List Char
  | [] => []
  | [c] => if pyIsSpace c then [' '] else [c]
  | c1 :: c2 :: rest =>
    if pyIsSpace c1 && pyIsSpace c2 then collapseWS (c2 :: rest)
    else (if pyIsSpace c1 then ' ' else c1) :: collapseWS (c2 :: rest)

/-- Python's `str.strip()`: drop leading and trailing whitespace. -/
def pyStrip (l : List Char) : List Char :=
  ((l.dropWhile pyIsSpace).reverse.dropWhile pyIsSpace).reverse

/-- Worker for `wordRuns`: `acc` holds the reversed current word-character run. -/
def wordRunsAux : List Char → List Char → List (List Char)
  | [], acc => if acc.isEmpty then [] else [acc.reverse]
  | c :: rest, acc =>
    if pyIsWordChar c then wordRunsAux rest (c :: acc)
    else if acc.isEmpty then wordRunsAux rest []
    else acc.reverse :: wordRunsAux rest []

/-- Python's `re.findall(r'\b\w+\b', s)`: the maximal word-character runs, in order. -/
def wordRuns (l : List Char) : List (List Char) := wordRunsAux l []

/-- Does `pat` occur at the very front of the second list? -/
def leadsWith : List Char → List Char → Bool
  | [], _ => true
  | _ :: _, [] => false
  | p :: ps, c :: cs => p == c && leadsWith ps cs

/-- Python's `str.find`: index of the first occurrence of `pat`, if any. -/
def findSub (pat : List Char) : List Char → Option Nat
  | [] => if pat.isEmpty then some 0 else none
  | c :: rest =>
    if leadsWith pat (c :: rest) then some 0
    else (findSub pat rest).map (· + 1)

/-- Python's `pat in s` substring test. -/
def containsSub (pat l : List Char) : Bool := (findSub pat l).isSome

/-- Python's `str.upper()` on the ASCII fragment. -/
def pyUpper (l : List Char) : List Char := l.map Char.toUpper

/-- Python's `str.lower()` on the ASCII fragment. -/
def pyLower (l : List Char) : List Char := l.map Char.toLower

/-- Python's `s.rsplit(' ', 1)[0]`: everything before the last space
(`s` itself when there is no space). -/
def pyRsplitFirst (l : List Char) : List Char :=
  match l.reverse.dropWhile (fun c => !(c == ' ')) with
  | [] => l
  | _ :: rest => rest.reverse

end Py

namespace FactCheck

/-- One article as parsed out of a provider's JSON response
(`title`, `description`, `url`, `source.name`, `publishedAt`, `content`). -/
structure RawArticle where
  title : String
  description : String
  url : String
  sourceName : String
  publishedAt : String
  content : String
deriving Repr, DecidableEq

/-- `sanitize_search_query` from fact_check.py: non-word, non-space characters
become spaces, whitespace runs collapse, the result is stripped and capped
at 100 characters. -/
def sanitize_search_query (q : String) : String :=
  let replaced := q.data.map (fun c => if Py.pyIsWordChar c || Py.pyIsSpace c then c else ' ')
  let collapsed := Py.pyStrip (Py.collapseWS replaced)
  if collapsed.length > 100 then String.mk (collapsed.take 100) else String.mk collapsed

/-- `generate_alternative_query` from fact_check.py: first three (or two)
word terms of the original query, else the query unchanged. -/
def generate_alternative_query (q : String) : String :=
  let key_terms := Py.wordRuns q.data
  if key_terms.length ≥ 3 then String.mk (List.intercalate [' '] (key_terms.take 3))
  else if key_terms.length ≥ 2 then String.mk (List.intercalate [' '] (key_terms.take 2))
  else q

/-- Outcome of one provider HTTP request: `none` models a non-2xx status or a
request exception (`make_api_call` returns Python `None`); `some l` models a
2xx response whose parsed article list is `l`. -/
abbrev ApiResp := Option (List RawArticle)

/-- `make_api_call` from fact_check.py, past the HTTP layer: a 2xx response
yields its article list (the empty list when `"articles"` is missing or
empty), any failure yields `none`. -/
def make_api_call (resp : ApiResp) : ApiResp :=
  match resp with
  | some arts => if arts.isEmpty then some [] else some arts
  | none => none

/-- The NewsAPI→GNews schema conversion in `fetch_news_articles`: field-by-field
copy of title, description, url, source name, publishedAt and content. -/
def convert_newsapi_article (a : RawArticle) : RawArticle :=
  { title := a.title, description := a.description, url := a.url,
    sourceName := a.sourceName, publishedAt := a.publishedAt, content := a.content }

/-- Result of `fetch_news_articles`: the returned articles, the updated global
call counter, and the trace of provider-search HTTP requests actually issued
(provider name and query, in order). -/
structure FetchResult where
  articles : List RawArticle
  count : Nat
  trace : List (String × String)
deriving Repr, DecidableEq

/-- Record one more HTTP request at the front of a result's trace. -/
def prependTrace (e : String × String) (r : FetchResult) : FetchResult :=
  { articles := r.articles, count := r.count, trace := e :: r.trace }

/-- Fourth attempt of `fetch_news_articles`: NewsAPI with the alternative query
(guarded by the budget; one request and one increment when it runs). -/
def fetch_alt_newsapi (env : Nat → ApiResp) (alt : String) (c N : Nat) : FetchResult :=
  if c < N then
    match make_api_call (env c) with
    | some arts => ⟨arts.map convert_newsapi_article, c + 1, [("NewsAPI", alt)]⟩
    | none => ⟨[], c + 1, [("NewsAPI", alt)]⟩
  else ⟨[], c, []⟩

/-- Alternative-query phase of `fetch_news_articles`: skipped entirely when the
alternative equals the sanitized query; otherwise GNews then NewsAPI, each
guarded by the budget. -/
def fetch_alt (env : Nat → ApiResp) (q sq : String) (c N : Nat) : FetchResult :=
  let alt := generate_alternative_query q
  if alt = sq then ⟨[], c, []⟩
  else if c < N then
    match make_api_call (env c) with
    | some arts => ⟨arts, c + 1, [("GNews", alt)]⟩
    | none => prependTrace ("GNews", alt) (fetch_alt_newsapi env alt (c + 1) N)
  else fetch_alt_newsapi env alt c N

/-- Second attempt of `fetch_news_articles`: NewsAPI with the sanitized query,
falling through to the alternative-query phase on hard failure or when the
budget forbids the attempt. -/
def fetch_after_gnews (env : Nat → ApiResp) (q sq : String) (c N : Nat) : FetchResult :=
  if c < N then
    match make_api_call (env c) with
    | some arts => ⟨arts.map convert_newsapi_article, c + 1, [("NewsAPI", sq)]⟩
    | none => prependTrace ("NewsAPI", sq) (fetch_alt env q sq (c + 1) N)
  else fetch_alt env q sq c N

/-- `fetch_news_articles` from fact_check.py.  `env i` is the parsed outcome of
the i-th provider-search HTTP request of the run (requests are strictly
sequential and the counter increments exactly once per request, so indexing by
the counter value is exact).  Any successful response — even an empty article
list — returns immediately; a hard failure falls through to the next attempt. -/
def fetch_news_articles (env : Nat → ApiResp) (q : String) (c N : Nat) : FetchResult :=
  let sq := sanitize_search_query q
  if c < N then
    match make_api_call (env c) with
    | some arts => ⟨arts, c + 1, [("GNews", sq)]⟩
    | none => prependTrace ("GNews", sq) (fetch_after_gnews env q sq (c + 1) N)
  else fetch_after_gnews env q sq c N

/-- One input claim record, with the fields `process_claims` reads
(`dict.get` with default `""`; `needs_external_verification` defaults to
true when absent, modelled by `Option Bool`). -/
structure ClaimData where
  claim : String
  original_claim : String
  search_query : String
  category : String
  verification_status : String
  confidence : String
  explanation : String
  fact_check_notes : String
  potential_impact : String
  source_url : String
  post_number : String
  historical_evidence : String
  needs_external_verification : Option Bool
deriving Repr, DecidableEq

/-- One article entry of the fact-check output (`content` is `None` when the
fetch failed). -/
structure ArticleData where
  title : String
  description : String
  url : String
  source : String
  publishedAt : String
  content : Option String
  content_tokens : Nat
deriving Repr, DecidableEq

/-- One output record of `process_claims`.  `verification_result` is `none`
when the Python dict never receives that key; likewise `historical_evidence`
is only present on the knowledge path. -/
structure ClaimResult where
  claim : String
  original_claim : String
  search_query : String
  category : String
  verification_status : String
  confidence : String
  explanation : String
  fact_check_notes : String
  potential_impact : String
  source_url : String
  post_number : String
  articles : List ArticleData
  total_tokens : Nat
  needs_external_verification : Bool
  verification_result : Option String
  historical_evidence : Option String
deriving Repr, DecidableEq

/-- The base `claim_result` dict built at the top of the loop body of
`process_claims`. -/
def base_claim_result (cd : ClaimData) (needsExt : Bool) : ClaimResult :=
  { claim := cd.claim, original_claim := cd.original_claim,
    search_query := cd.search_query, category := cd.category,
    verification_status := cd.verification_status, confidence := cd.confidence,
    explanation := cd.explanation, fact_check_notes := cd.fact_check_notes,
    potential_impact := cd.potential_impact, source_url := cd.source_url,
    post_number := cd.post_number, articles := [], total_tokens := 0,
    needs_external_verification := needsExt,
    verification_result := none, historical_evidence := none }

/-- Python truthiness of the fetched content (`if full_content:`):
false for `None` and for the empty string. -/
def content_truthy : Option String → Bool
  | some s => !(s == "")
  | none => false

/-- The per-article block of `process_claims`: fetch the full content
(`fc` is the `fetch_full_article_content` oracle, `none` on blocked domain,
non-2xx or exception) and count its tokens (`tok` is the `count_tokens`
oracle). -/
def build_article (fc : String → Option String) (tok : String → Nat)
    (a : RawArticle) : ArticleData :=
  let full := fc a.url
  { title := a.title, description := a.description, url := a.url,
    source := a.sourceName, publishedAt := a.publishedAt, content := full,
    content_tokens := match full with
      | some s => if s == "" then 0 else tok s
      | none => 0 }

/-- Process-wide effect state of one `process_claims` run: the global API call
counter, the trace of provider-search requests and the trace of article-fetch
requests. -/
structure EffState where
  count : Nat
  searchTrace : List (String × String)
  fetchTrace : List String
deriving Repr, DecidableEq

/-- The state at the start of a run: counter zero, nothing requested yet. -/
def init_state : EffState := ⟨0, [], []⟩

/-- Outcome of one iteration of the `process_claims` loop: either a result
record is appended (with the updated effect state), or the `break` fires and
the loop stops without a record. -/
inductive StepOut where
  | record (r : ClaimResult) (st : EffState)
  | stop
deriving Repr, DecidableEq

/-- The external-verification body of the `process_claims` loop (the branch
taken when a search query is available and the budget check passed): search,
fetch each hit's content, tag the record. -/
def external_step (env : Nat → ApiResp) (fc : String → Option String)
    (tok : String → Nat) (N : Nat) (st : EffState) (base : ClaimResult)
    (sq : String) : StepOut :=
  let fr := fetch_news_articles env sq st.count N
  let st1 : EffState := { st with
    count := fr.count,
    searchTrace := st.searchTrace ++ fr.trace }
  if fr.articles.isEmpty then
    .record { base with verification_result := some "no_articles_found" } st1
  else
    let ads := fr.articles.map (build_article fc tok)
    let total := (ads.map (fun ad =>
      if content_truthy ad.content then ad.content_tokens else 0)).sum
    let st2 : EffState := { st1 with
      fetchTrace := st1.fetchTrace ++ fr.articles.map (fun a => a.url) }
    .record { base with
      articles := ads,
      total_tokens := total,
      verification_result :=
        some (if 0 < total then "content_found" else "no_content_found") } st2

/-- One iteration of the loop body of `process_claims`:  knowledge path when
`needs_external_verification` is false;  `break` when the counter has reached
the ceiling;  otherwise search (falling back to the claim text when the search
query is empty — and producing a record without any `verification_result` key
when both are empty), fetch each hit's content, and tag the record.
The `time.sleep(1)` politeness delay and the log counters have no effect on
data or network traffic and are not modelled. -/
def processOneClaim (env : Nat → ApiResp) (fc : String → Option String)
    (tok : String → Nat) (N : Nat) (st : EffState) (cd : ClaimData) : StepOut :=
  let needsExt := cd.needs_external_verification.getD true
  let base := base_claim_result cd needsExt
  if !needsExt then
    .record { base with
      verification_result := some "verified_by_knowledge",
      historical_evidence := some cd.historical_evidence } st
  else if N ≤ st.count then .stop
  else
    let sq := if !(cd.search_query == "") then cd.search_query else cd.claim
    if sq == "" then .record base st
    else external_step env fc tok N st base sq

/-- The full results object of `process_claims` (timestamp from the clock
oracle), together with the final effect state. -/
structure RunResult where
  timestamp : String
  verified_claims : List ClaimResult
  state : EffState
deriving Repr, DecidableEq

/-- The loop of `process_claims`: iterate in input order, appending records,
stopping at the first `break`. -/
def processClaimsAux (env : Nat → ApiResp) (fc : String → Option String)
    (tok : String → Nat) (N : Nat) (now : String) :
    EffState → List ClaimResult → List ClaimData → RunResult
  | st, acc, [] => ⟨now, acc, st⟩
  | st, acc, cd :: rest =>
    match processOneClaim env fc tok N st cd with
    | .stop => ⟨now, acc, st⟩
    | .record r st1 => processClaimsAux env fc tok N now st1 (acc ++ [r]) rest

/-- `process_claims` from fact_check.py. -/
def process_claims (now : String) (env : Nat → ApiResp)
    (fc : String → Option String) (tok : String → Nat)
    (cds : List ClaimData) (N : Nat) : RunResult :=
  processClaimsAux env fc tok N now init_state [] cds

/-- `run_fact_checking_process` from fact_check.py.  `fs` is the
`os.path.exists` oracle, `load` the `load_json_data` oracle (empty list on a
missing or unparsable file), `saveOk` the success of `save_results_to_file`.
Returns the output path (or `none`) together with the network effect state of
the run (`init_state` when nothing was processed). -/
def run_fact_checking_process (fs : String → Bool)
    (load : String → List ClaimData) (now : String) (env : Nat → ApiResp)
    (fc : String → Option String) (tok : String → Nat) (saveOk : Bool)
    (jsonPath resultsPath : String) (N : Nat) : Option String × EffState :=
  if fs resultsPath then (some resultsPath, init_state)
  else if !(fs jsonPath) then (none, init_state)
  else
    let data := load jsonPath
    if data.isEmpty then (none, init_state)
    else
      let r := process_claims now env fc tok data N
      if saveOk then (some resultsPath, r.state) else (none, r.state)

end FactCheck

namespace Py

/-- A single-quote character as a string (used inside literal prompt texts). -/
def apos : String := String.mk [Char.ofNat 39]

end Py

namespace Main4

/-- One article of a provider response, as read by `search_single_api`. -/
structure MRaw where
  title : String
  description : String
  content : String
  url : String
  publishedAt : String
  source : String
deriving Repr, DecidableEq

/-- The normalized article shape produced by `search_single_api`
(provider fields plus the `api_used` tag). -/
structure MArticle where
  title : String
  description : String
  content : String
  url : String
  publishedAt : String
  source : String
  api_used : String
deriving Repr, DecidableEq

/-- The per-provider normalization loop of `search_single_api`. -/
def to_marticle (api : String) (a : MRaw) : MArticle :=
  { title := a.title, description := a.description, content := a.content,
    url := a.url, publishedAt := a.publishedAt, source := a.source,
    api_used := api }

/-- Outcome of one HTTP request issued by `search_single_api`:
2xx with a parsed article list, a non-2xx status code, or a request
exception (raised after the counter increment). -/
inductive Outcome where
  | ok (articles : List MRaw)
  | httpError (status : Nat)
  | exn (msg : String)
deriving Repr, DecidableEq

/-- The process-wide globals of main4.py: `api_call_count`,
`gnews_available`, `newsapi_available`. -/
structure ApiState where
  count : Nat
  gnews : Bool
  newsapi : Bool
deriving Repr, DecidableEq

/-- `get_available_api` from main4.py: first provider still available, in
fixed priority order. -/
def get_available_api (st : ApiState) : String :=
  if st.gnews then "gnews" else if st.newsapi then "newsapi" else "none"

/-- `search_single_api` from main4.py, with explicit recursion fuel (the
Python function calls itself after marking a provider unavailable; since a
recursive call only happens after an available provider was just marked
unavailable and there are two providers, the recursion depth never exceeds
the fuel used by the `search_single_api` wrapper).  `env i` is the outcome
of the i-th HTTP request of the run. -/
def search_single_api_fuel (env : Nat → Outcome) (N : Nat) :
    Nat → ApiState → String → Nat → (List MArticle × String) × ApiState
  | 0, st, _, _ => (([], "none"), st)
  | fuel + 1, st, q, m =>
    if !(st.count < N) then (([], "none"), st)
    else
      let api := get_available_api st
      if api = "none" then (([], "none"), st)
      else
        let st1 : ApiState := { st with count := st.count + 1 }
        if api = "gnews" then
          match env st.count with
          | .ok raws => ((raws.map (to_marticle "gnews"), "gnews"), st1)
          | .httpError s =>
            if s = 429 || s = 403 then
              let st2 : ApiState := { st1 with gnews := false }
              if st2.newsapi && st2.count < N then
                search_single_api_fuel env N fuel st2 q m
              else (([], "gnews"), st2)
            else (([], "gnews"), st1)
          | .exn _ =>
            let st2 : ApiState := { st1 with gnews := false }
            if st2.newsapi && st2.count < N then
              search_single_api_fuel env N fuel st2 q m
            else (([], "gnews"), st2)
        else
          match env st.count with
          | .ok raws => ((raws.map (to_marticle "newsapi"), "newsapi"), st1)
          | .httpError s =>
            if s = 429 || s = 403 then
              let st2 : ApiState := { st1 with newsapi := false }
              if st2.gnews && st2.count < N then
                search_single_api_fuel env N fuel st2 q m
              else (([], "newsapi"), st2)
            else (([], "newsapi"), st1)
          | .exn _ =>
            let st2 : ApiState := { st1 with newsapi := false }
            if st2.gnews && st2.count < N then
              search_single_api_fuel env N fuel st2 q m
            else (([], "newsapi"), st2)

/-- `search_single_api` from main4.py (fuel 3 covers the maximal possible
chain: one attempt per provider plus one final no-provider return). -/
def search_single_api (env : Nat → Outcome) (N : Nat) (st : ApiState)
    (q : String) (m : Nat) : (List MArticle × String) × ApiState :=
  search_single_api_fuel env N 3 st q m

/-- `truncate_text_for_tokens` from main4.py: character budget of four per
token; over-long text is cut at the budget, trimmed back to the last space,
and suffixed with an ellipsis. -/
def truncate_text_for_tokens (t : String) (n : Nat) : String :=
  let maxChars := n * 4
  if t.length ≤ maxChars then t
  else String.mk (Py.pyRsplitFirst (t.data.take maxChars)) ++ "..."

end Main4

namespace Main5

/-- Token-budget constants of main5.py. -/
def MAX_TOKENS : Nat := 8192

/-- Reserve for system formatting. -/
def SYSTEM_OVERHEAD : Nat := 100

/-- Response-length budget for the model. -/
def MAX_RESPONSE_TOKENS : Nat := 2000

/-- Reserve for claim text and formatting. -/
def CLAIM_OVERHEAD : Nat := 100

/-- Tokens available for article evidence. -/
def AVAILABLE_FOR_ARTICLES : Nat :=
  MAX_TOKENS - SYSTEM_OVERHEAD - MAX_RESPONSE_TOKENS - CLAIM_OVERHEAD

/-- The fixed system prompt of main5.py. -/
def SYSTEM_PROMPT : String :=
  "You are a fact-checking assistant. Analyze the claim against the provided articles and determine if it" ++
  Py.apos ++
  "s TRUE or FALSE.\n\nThink through your reasoning step by step, then provide your final classification."

/-- `extract_classification` from main5.py: lower-case the response, look for a
bare "false" (negated forms flip it), then a bare "true", then conclusive
phrases, then evidence-absence phrases, defaulting to UNVERIFIABLE. -/
def extract_classification (response_text : String) : String :=
  let low := Py.pyLower response_text.data
  if Py.containsSub "false".data low then
    if Py.containsSub "not false".data low ||
        Py.containsSub ("isn" ++ Py.apos ++ "t false").data low then "TRUE"
    else "FALSE"
  else if Py.containsSub "true".data low then
    if Py.containsSub "not true".data low ||
        Py.containsSub ("isn" ++ Py.apos ++ "t true").data low then "FALSE"
    else "TRUE"
  else if Py.containsSub "claim is correct".data low ||
      Py.containsSub "claim is accurate".data low then "TRUE"
  else if Py.containsSub "claim is incorrect".data low ||
      Py.containsSub "claim is inaccurate".data low ||
      Py.containsSub "claim is wrong".data low then "FALSE"
  else if Py.containsSub "no evidence".data low ||
      Py.containsSub "cannot be verified".data low then "FALSE"
  else "UNVERIFIABLE"

/-- Loop of `extract_article_content` from main5.py.  `tok` is the tiktoken
`count_tokens` oracle and `trunc` the tiktoken-backed `truncate_text_to_tokens`
oracle.  The fact-check records always carry the `title`, `source`,
`description` and `content` keys (so those `dict.get` defaults never fire, and
the absent `summary` key always falls through to `description`); a `None`
content is falsy and likewise falls through. -/
def extract_article_content_aux (tok : String → Nat) (trunc : String → Nat → String) :
    List FactCheck.ArticleData → Nat → Nat → String
  | [], _, _ => ""
  | a :: rest, remaining, i =>
    if remaining ≤ 50 then ""
    else
      let contentStr := match a.content with
        | some s => s
        | none => ""
      let chosen := if contentStr == "" then a.description else contentStr
      let article_text :=
        "\n--- Article " ++ toString (i + 1) ++ " ---\nSource: " ++ a.source ++
        "\nTitle: " ++ a.title ++ "\nContent: " ++ chosen ++ "\n"
      let article_tokens := tok article_text
      if article_tokens ≤ remaining then
        article_text ++ extract_article_content_aux tok trunc rest (remaining - article_tokens) (i + 1)
      else trunc article_text remaining

/-- `extract_article_content` from main5.py. -/
def extract_article_content (tok : String → Nat) (trunc : String → Nat → String)
    (articles : List FactCheck.ArticleData) (max_tokens : Nat) : String :=
  if articles.isEmpty then "No articles available."
  else extract_article_content_aux tok trunc articles max_tokens 0

/-- Outcome of one LLM chat invocation of main5.py: the accumulated streamed
response text, or the message of a raised exception. -/
structure Classification5 where
  label : String
  llm_response : String
  reasoning : String
deriving Repr, DecidableEq

/-- `classify_claim_with_llm` from main5.py.  `llm sys user` is the
`create_chat_completion` oracle (ok = full accumulated streamed response,
error = exception text); the second component counts model invocations.
With an empty article list the function returns UNVERIFIABLE at once,
before any model call. -/
def classify_claim_with_llm (tok : String → Nat) (trunc : String → Nat → String)
    (llm : String → String → Except String String)
    (claim explanation : String) (articles : List FactCheck.ArticleData) :
    Classification5 × Nat :=
  if articles.isEmpty then
    ({ label := "UNVERIFIABLE",
       llm_response := "No articles available for verification.",
       reasoning := "Cannot verify without source articles." }, 0)
  else
    let article_content := extract_article_content tok trunc articles AVAILABLE_FOR_ARTICLES
    let user_message :=
      "CLAIM TO VERIFY: " ++ claim ++ "\n\nREFERENCE ARTICLES:\n" ++ article_content ++
      "\n\nAnalyze whether this claim is TRUE or FALSE based on the articles provided. Think through your reasoning carefully."
    match llm SYSTEM_PROMPT user_message with
    | .ok full_response =>
      ({ label := extract_classification full_response,
         llm_response := full_response, reasoning := full_response }, 1)
    | .error e =>
      ({ label := "ERROR", llm_response := "Error: " ++ e, reasoning := "" }, 1)

/-- The `articles_used` entries of a main5.py classification record. -/
structure ArticleRef where
  title : String
  source : String
  url : String
deriving Repr, DecidableEq

/-- One record of the main5.py classification output. -/
structure ClassificationRecord where
  claim : String
  original_claim : String
  search_query : String
  category : String
  classification : String
  reasoning : String
  full_response : String
  articles_count : Nat
  articles_used : List ArticleRef
deriving Repr, DecidableEq

/-- The claim loop of `process_claims_with_llm`: claims without text are
skipped (`continue`), every other claim is classified; the second component
counts model invocations. -/
def process_claims_records (tok : String → Nat) (trunc : String → Nat → String)
    (llm : String → String → Except String String) :
    List FactCheck.ClaimResult → List ClassificationRecord × Nat
  | [] => ([], 0)
  | cd :: rest =>
    let (recs, calls) := process_claims_records tok trunc llm rest
    if cd.claim == "" then (recs, calls)
    else
      let (cls, c1) := classify_claim_with_llm tok trunc llm cd.claim cd.explanation cd.articles
      ({ claim := cd.claim, original_claim := cd.original_claim,
         search_query := cd.search_query, category := cd.category,
         classification := cls.label, reasoning := cls.reasoning,
         full_response := cls.llm_response,
         articles_count := cd.articles.length,
         articles_used := (cd.articles.take 5).map
           (fun art => { title := art.title, source := art.source, url := art.url }) } :: recs,
       c1 + calls)

/-- The results object of `process_claims_with_llm`. -/
structure Run5Results where
  timestamp : String
  model_used : String
  max_tokens : Nat
  max_response_tokens : Nat
  classifications : List ClassificationRecord
deriving Repr, DecidableEq

/-- `process_claims_with_llm` from main5.py: `none` when model loading raised
(the Python function returns `{}` there, having made no model call). -/
def process_claims_with_llm (tok : String → Nat) (trunc : String → Nat → String)
    (llm : String → String → Except String String) (modelLoadOk : Bool)
    (now modelPath : String) (claims : List FactCheck.ClaimResult) :
    Option Run5Results × Nat :=
  if modelLoadOk then
    let (recs, calls) := process_claims_records tok trunc llm claims
    (some { timestamp := now, model_used := modelPath, max_tokens := MAX_TOKENS,
            max_response_tokens := MAX_RESPONSE_TOKENS, classifications := recs }, calls)
  else (none, 0)

/-- `run_llm_classification_process` from main5.py.  `fs` is the
`os.path.exists` oracle; `load` the `load_json_data` composed with the
`verified_claims` lookup (`none` when the loaded data is falsy).  The second
component counts model invocations.  Note that the Python function saves and
returns the output path even when `process_claims_with_llm` returned `{}`. -/
def run_llm_classification_process (fs : String → Bool)
    (load : String → Option (List FactCheck.ClaimResult)) (tok : String → Nat)
    (trunc : String → Nat → String) (llm : String → String → Except String String)
    (modelLoadOk saveOk : Bool) (now : String)
    (inputPath modelPath outputPath : String) : Option String × Nat :=
  if fs outputPath then (some outputPath, 0)
  else if !(fs inputPath) then (none, 0)
  else if !(fs modelPath) then (none, 0)
  else
    match load inputPath with
    | none => (none, 0)
    | some claims =>
      let pr := process_claims_with_llm tok trunc llm modelLoadOk now modelPath claims
      if saveOk then (some outputPath, pr.2) else (none, pr.2)

end Main5

namespace Main6

/-- 8k-token context window of main6.py. -/
def MAX_TOKENS : Nat := 8192

/-- Prompt-overhead reserve. -/
def PROMPT_TOKENS : Nat := 300

/-- Claim/explanation reserve. -/
def CLAIM_EXPLANATION_TOKENS : Nat := 200

/-- Response reserve. -/
def RESPONSE_TOKENS : Nat := 1000

/-- Token budget for article evidence. -/
def ARTICLE_TOKENS : Nat :=
  MAX_TOKENS - PROMPT_TOKENS - CLAIM_EXPLANATION_TOKENS - RESPONSE_TOKENS

/-- `count_tokens` from main6.py: one token per four characters (both the
normal path and its fallback return exactly this). -/
def count_tokens (text : String) : Nat := text.length / 4

/-- `truncate_text_to_tokens` from main6.py: plain character-prefix
truncation at four characters per token (the `try` body cannot raise, so
the identical `except` fallback is dead code). -/
def truncate_text_to_tokens (text : String) (max_tokens : Nat) : String :=
  let max_chars := max_tokens * 4
  if text.length ≤ max_chars then text
  else String.mk (text.data.take max_chars)

/-- Loop of `extract_article_content` from main6.py.  The fact-check records
carry `publishedAt`, never the `published_date` key this code asks for, so
that line always renders the empty default; likewise the `body` key is never
present, so only a truthy `content` value adds a Content line. -/
def extract_article_content_aux :
    List FactCheck.ArticleData → Nat → Nat → String
  | [], _, _ => ""
  | a :: rest, remaining, i =>
    if remaining = 0 then ""
    else
      let parts : List String :=
        ["\n\nArticle " ++ toString (i + 1) ++ ":",
         "Title: " ++ a.title,
         "Source: " ++ a.source,
         "Published Date: ",
         "URL: " ++ a.url,
         "Summary: " ++ a.description]
      let parts :=
        if FactCheck.content_truthy a.content then
          parts ++ ["Content: " ++ a.content.getD ""]
        else parts
      let article_text := String.intercalate "\n" parts
      let article_tokens := count_tokens article_text
      if article_tokens ≤ remaining then
        article_text ++ extract_article_content_aux rest (remaining - article_tokens) (i + 1)
      else truncate_text_to_tokens article_text remaining

/-- `extract_article_content` from main6.py. -/
def extract_article_content (articles : List FactCheck.ArticleData)
    (max_tokens : Nat) : String :=
  if articles.isEmpty then "No articles available for comparison."
  else extract_article_content_aux articles max_tokens 0

/-- `ensure_token_limit` from main6.py. -/
def ensure_token_limit (prompt : String) (max_tokens : Nat) : String :=
  if count_tokens prompt ≤ max_tokens then prompt
  else truncate_text_to_tokens prompt max_tokens

/-- Text of `CLASSIFICATION_PROMPT` before the claim placeholder. -/
def PROMPT_PART1 : String :=
  "\nIMPORTANT: You are a fact-checking AI assistant. Your task is to analyze a claim and determine if it is TRUE or FALSE.\n\nCRITICAL INSTRUCTIONS:\n1. First verify if the articles themselves are reliable sources\n2. Check if the articles contain factual information or misinformation\n3. Only use the articles as evidence if they appear to be from reliable sources\n4. If the articles seem to contain misinformation or are from unreliable sources, classify the claim as \"UNVERIFIABLE\"\n\nCLAIM TO VERIFY: "

/-- Text of `CLASSIFICATION_PROMPT` between the claim and articles placeholders. -/
def PROMPT_PART2 : String := "\n\nARTICLES FOR REFERENCE:\n"

/-- Text of `CLASSIFICATION_PROMPT` after the articles placeholder. -/
def PROMPT_PART3 : String :=
  "\n\nINSTRUCTIONS:\n1. Read the claim carefully\n2. Review the articles for evidence and reliability\n3. Decide if the claim is supported (TRUE), contradicted (FALSE), or if the articles are unreliable (UNVERIFIABLE)\n4. Provide your answer in this EXACT format:\n   LABEL: [TRUE, FALSE, or UNVERIFIABLE]\n   EXPLANATION: [2-3 sentences explaining your decision]\n\nYOUR RESPONSE (must follow the exact format above):\n"

/-- `CLASSIFICATION_PROMPT.format(claim=..., articles=...)` from main6.py. -/
def format_classification_prompt (claim articles : String) : String :=
  PROMPT_PART1 ++ claim ++ PROMPT_PART2 ++ articles ++ PROMPT_PART3

/-- The label-extraction block of `classify_claim_with_gemini` (main6.py
lines 341-352): upper-case the response, then search for the three label
patterns in priority order TRUE, FALSE, UNVERIFIABLE; `"unknown"` when none
is found. -/
def gemini_extract_label (result_text : String) : String :=
  let up := Py.pyUpper result_text.data
  if Py.containsSub "LABEL: TRUE".data up then "true"
  else if Py.containsSub "LABEL: FALSE".data up then "false"
  else if Py.containsSub "LABEL: UNVERIFIABLE".data up then "unverifiable"
  else "unknown"

/-- The explanation-extraction block of `classify_claim_with_gemini`
(main6.py lines 354-359): text after the first case-insensitive
`EXPLANATION:` up to the next blank line, stripped. -/
def gemini_extract_explanation (result_text : String) : String :=
  let up := Py.pyUpper result_text.data
  match Py.findSub "EXPLANATION:".data up with
  | none => ""
  | some idx =>
    let tail := result_text.data.drop (idx + 12)
    let seg := match Py.findSub "\n\n".data tail with
      | none => tail
      | some j => tail.take j
    String.mk (Py.pyStrip seg)

/-- Outcome of the primary (non-streaming) Gemini invocation: a safety
block, a response whose `.text` accessor raises, a good response text, or a
raised exception (which triggers the streaming fallback). -/
inductive GemOutcome where
  | blocked
  | textError (msg : String)
  | ok (text : String)
  | raised (msg : String)
deriving Repr, DecidableEq

/-- Result dict of `classify_claim_with_gemini` (`tokens_used` is only
present on the successful paths). -/
structure Classification6 where
  label : String
  explanation : String
  full_response : String
  tokens_used : Option (Nat × Nat)
deriving Repr, DecidableEq

/-- `classify_claim_with_gemini` from main6.py.  `gem` is the primary
`generate_content` oracle on the final prompt and `gemStream` the streaming
fallback (ok = accumulated chunks); the second component counts generative
invocations.  With an empty article list the function returns at once,
before any model call. -/
def classify_claim_with_gemini (gem : String → GemOutcome)
    (gemStream : String → Except String String)
    (claim explanation : String) (articles : List FactCheck.ArticleData) :
    Classification6 × Nat :=
  if articles.isEmpty then
    ({ label := "unverifiable",
       explanation := "No articles available to verify this claim.",
       full_response := "No articles available for comparison.",
       tokens_used := none }, 0)
  else
    let article_content := extract_article_content articles ARTICLE_TOKENS
    let article_tokens := count_tokens article_content
    let formatted_prompt := format_classification_prompt claim article_content
    let final_prompt := ensure_token_limit formatted_prompt (MAX_TOKENS - RESPONSE_TOKENS)
    let total_tokens := count_tokens final_prompt
    match gem final_prompt with
    | .blocked =>
      ({ label := "error",
         explanation := "Response was blocked due to safety concerns. This may be due to sensitive content in the claim or articles.",
         full_response := "Response blocked by safety filters.",
         tokens_used := none }, 1)
    | .textError e =>
      ({ label := "error",
         explanation := "Error accessing response text: " ++ e,
         full_response := "", tokens_used := none }, 1)
    | .ok result_text =>
      ({ label := gemini_extract_label result_text,
         explanation := gemini_extract_explanation result_text,
         full_response := result_text,
         tokens_used := some (article_tokens, total_tokens) }, 1)
    | .raised e =>
      match gemStream final_prompt with
      | .ok result_text =>
        ({ label := gemini_extract_label result_text,
           explanation := gemini_extract_explanation result_text,
           full_response := result_text,
           tokens_used := some (article_tokens, total_tokens) }, 2)
      | .error e2 =>
        ({ label := "error",
           explanation := "Error generating response: " ++ e ++ "; Streaming error: " ++ e2,
           full_response := "", tokens_used := none }, 2)

end Main6

namespace FactCheck

/-- Exact accounting for one phase of `fetch_news_articles` that starts at
counter value `c`: the counter never decreases, never passes the ceiling,
and the number of HTTP requests issued equals the counter increase. -/
def FetchBound (c N : Nat) (r : FetchResult) : Prop :=
  c ≤ r.count ∧ r.count ≤ N ∧ r.trace.length + c = r.count

theorem fetch_alt_newsapi_bound (env : Nat → ApiResp) (alt : String) (c N : Nat)
    (h : c ≤ N) : FetchBound c N (fetch_alt_newsapi env alt c N) := by
  unfold FetchBound fetch_alt_newsapi
  by_cases h1 : c < N
  · simp only [if_pos h1]
    cases make_api_call (env c) <;> simp <;> omega
  · simp only [if_neg h1]
    exact ⟨Nat.le_refl c, h, by simp⟩

theorem fetch_alt_bound (env : Nat → ApiResp) (q sq : String) (c N : Nat)
    (h : c ≤ N) : FetchBound c N (fetch_alt env q sq c N) := by
  unfold fetch_alt
  by_cases h0 : generate_alternative_query q = sq
  · simp only [if_pos h0]
    exact ⟨Nat.le_refl c, h, by simp⟩
  · simp only [if_neg h0]
    by_cases h1 : c < N
    · simp only [if_pos h1]
      cases hmk : make_api_call (env c) with
      | some arts => exact ⟨Nat.le_succ c, h1, by simp; omega⟩
      | none =>
        have := fetch_alt_newsapi_bound env (generate_alternative_query q) (c + 1) N h1
        unfold FetchBound at this ⊢
        simp only [prependTrace]
        simp only [List.length_cons]
        omega
    · simp only [if_neg h1]
      exact fetch_alt_newsapi_bound env (generate_alternative_query q) c N h

theorem fetch_after_gnews_bound (env : Nat → ApiResp) (q sq : String) (c N : Nat)
    (h : c ≤ N) : FetchBound c N (fetch_after_gnews env q sq c N) := by
  unfold fetch_after_gnews
  by_cases h1 : c < N
  · simp only [if_pos h1]
    cases hmk : make_api_call (env c) with
    | some arts => exact ⟨Nat.le_succ c, h1, by simp; omega⟩
    | none =>
      have := fetch_alt_bound env q sq (c + 1) N h1
      unfold FetchBound at this ⊢
      simp only [prependTrace, List.length_cons]
      omega
  · simp only [if_neg h1]
    exact fetch_alt_bound env q sq c N h

theorem fetch_news_articles_bound (env : Nat → ApiResp) (q : String) (c N : Nat)
    (h : c ≤ N) : FetchBound c N (fetch_news_articles env q c N) := by
  unfold fetch_news_articles
  by_cases h1 : c < N
  · simp only [if_pos h1]
    cases hmk : make_api_call (env c) with
    | some arts => exact ⟨Nat.le_succ c, h1, by simp; omega⟩
    | none =>
      have := fetch_after_gnews_bound env q (sanitize_search_query q) (c + 1) N h1
      unfold FetchBound at this ⊢
      simp only [prependTrace, List.length_cons]
      omega
  · simp only [if_neg h1]
    exact fetch_after_gnews_bound env q (sanitize_search_query q) c N h

theorem fetch_alt_newsapi_ceiling (env : Nat → ApiResp) (alt : String) (c N : Nat)
    (h : N ≤ c) : fetch_alt_newsapi env alt c N = ⟨[], c, []⟩ := by
  unfold fetch_alt_newsapi
  simp only [if_neg (by omega : ¬ c < N)]

theorem fetch_alt_ceiling (env : Nat → ApiResp) (q sq : String) (c N : Nat)
    (h : N ≤ c) : fetch_alt env q sq c N = ⟨[], c, []⟩ := by
  unfold fetch_alt
  by_cases h0 : generate_alternative_query q = sq
  · simp only [if_pos h0]
  · simp only [if_neg h0, if_neg (by omega : ¬ c < N)]
    exact fetch_alt_newsapi_ceiling env _ c N h

theorem fetch_after_gnews_ceiling (env : Nat → ApiResp) (q sq : String) (c N : Nat)
    (h : N ≤ c) : fetch_after_gnews env q sq c N = ⟨[], c, []⟩ := by
  unfold fetch_after_gnews
  simp only [if_neg (by omega : ¬ c < N)]
  exact fetch_alt_ceiling env q sq c N h

theorem fetch_news_articles_ceiling (env : Nat → ApiResp) (q : String) (c N : Nat)
    (h : N ≤ c) : fetch_news_articles env q c N = ⟨[], c, []⟩ := by
  unfold fetch_news_articles
  simp only [if_neg (by omega : ¬ c < N)]
  exact fetch_after_gnews_ceiling env q _ c N h

end FactCheck

namespace FactCheck

/-- Run-level invariant of `process_claims`: the call counter stays within
the ceiling, and the search trace length equals the counter (both start at
zero and advance together, one trace entry per increment). -/
def StInv (N : Nat) (st : EffState) : Prop :=
  st.count ≤ N ∧ st.searchTrace.length = st.count

theorem external_step_record (env : Nat → ApiResp) (fc : String → Option String)
    (tok : String → Nat) (N : Nat) (st : EffState) (base : ClaimResult)
    (sq : String) (r : ClaimResult) (st1 : EffState)
    (heq : external_step env fc tok N st base sq = .record r st1) :
    st1.count = (fetch_news_articles env sq st.count N).count ∧
    st1.searchTrace = st.searchTrace ++ (fetch_news_articles env sq st.count N).trace ∧
    (r.verification_result = some "no_articles_found" ∨
     r.verification_result = some "content_found" ∨
     r.verification_result = some "no_content_found") := by
  simp only [external_step] at heq
  split at heq
  · cases heq
    exact ⟨rfl, rfl, Or.inl rfl⟩
  · cases heq
    refine ⟨rfl, rfl, ?_⟩
    split <;> simp

theorem processOneClaim_record_elim (env : Nat → ApiResp) (fc : String → Option String)
    (tok : String → Nat) (N : Nat) (st : EffState) (cd : ClaimData)
    (r : ClaimResult) (st1 : EffState)
    (heq : processOneClaim env fc tok N st cd = .record r st1) :
    (st1 = st ∧ (r.verification_result = none ∨
                 r.verification_result = some "verified_by_knowledge")) ∨
    (∃ sq, st.count < N ∧
      st1.count = (fetch_news_articles env sq st.count N).count ∧
      st1.searchTrace = st.searchTrace ++ (fetch_news_articles env sq st.count N).trace ∧
      (r.verification_result = some "no_articles_found" ∨
       r.verification_result = some "content_found" ∨
       r.verification_result = some "no_content_found")) := by
  by_cases hneed : cd.needs_external_verification.getD true = true
  · by_cases hceil : N ≤ st.count
    · exfalso
      have hval : processOneClaim env fc tok N st cd = .stop := by
        simp [processOneClaim, hneed, hceil]
      rw [hval] at heq
      cases heq
    · by_cases hq : (cd.search_query == "") = true
      · by_cases hc : (cd.claim == "") = true
        · have hval : processOneClaim env fc tok N st cd =
              .record (base_claim_result cd true) st := by
            simp [processOneClaim, hneed, hceil, hq, hc]
          rw [hval] at heq
          cases heq
          exact Or.inl ⟨rfl, Or.inl rfl⟩
        · have hc' : (cd.claim == "") = false := by simpa using hc
          have hval : processOneClaim env fc tok N st cd =
              external_step env fc tok N st (base_claim_result cd true) cd.claim := by
            simp [processOneClaim, hneed, hceil, hq, hc']
          rw [hval] at heq
          exact Or.inr ⟨cd.claim, by omega,
            external_step_record env fc tok N st _ _ r st1 heq⟩
      · have hq' : (cd.search_query == "") = false := by simpa using hq
        have hval : processOneClaim env fc tok N st cd =
            external_step env fc tok N st (base_claim_result cd true) cd.search_query := by
          simp [processOneClaim, hneed, hceil, hq']
        rw [hval] at heq
        exact Or.inr ⟨cd.search_query, by omega,
          external_step_record env fc tok N st _ _ r st1 heq⟩
  · have hneed' : cd.needs_external_verification.getD true = false := by
      simpa using hneed
    have hval : processOneClaim env fc tok N st cd =
        .record { base_claim_result cd false with
          verification_result := some "verified_by_knowledge",
          historical_evidence := some cd.historical_evidence } st := by
      simp [processOneClaim, hneed']
    rw [hval] at heq
    cases heq
    exact Or.inl ⟨rfl, Or.inr rfl⟩

theorem processOneClaim_record_inv (env : Nat → ApiResp) (fc : String → Option String)
    (tok : String → Nat) (N : Nat) (st : EffState) (cd : ClaimData)
    (r : ClaimResult) (st1 : EffState) (hinv : StInv N st)
    (heq : processOneClaim env fc tok N st cd = .record r st1) : StInv N st1 := by
  rcases processOneClaim_record_elim env fc tok N st cd r st1 heq with
    ⟨rfl, _⟩ | ⟨sq, hlt, hcnt, htr, _⟩
  · exact hinv
  · have hb := fetch_news_articles_bound env sq st.count N (Nat.le_of_lt hlt)
    unfold FetchBound at hb
    refine ⟨?_, ?_⟩
    · rw [hcnt]
      exact hb.2.1
    · rw [htr, hcnt]
      simp only [List.length_append]
      have h2 := hinv.2
      omega

theorem processOneClaim_record_vr (env : Nat → ApiResp) (fc : String → Option String)
    (tok : String → Nat) (N : Nat) (st : EffState) (cd : ClaimData)
    (r : ClaimResult) (st1 : EffState)
    (heq : processOneClaim env fc tok N st cd = .record r st1) :
    r.verification_result = none ∨
    r.verification_result = some "verified_by_knowledge" ∨
    r.verification_result = some "no_articles_found" ∨
    r.verification_result = some "content_found" ∨
    r.verification_result = some "no_content_found" := by
  rcases processOneClaim_record_elim env fc tok N st cd r st1 heq with
    ⟨_, h | h⟩ | ⟨_, _, _, _, h | h | h⟩ <;> simp [h]

theorem processClaimsAux_inv (env : Nat → ApiResp) (fc : String → Option String)
    (tok : String → Nat) (N : Nat) (now : String) :
    ∀ (cds : List ClaimData) (st : EffState) (acc : List ClaimResult),
    StInv N st → StInv N (processClaimsAux env fc tok N now st acc cds).state := by
  intro cds
  induction cds with
  | nil => intro st acc h; simpa [processClaimsAux] using h
  | cons cd rest ih =>
    intro st acc h
    simp only [processClaimsAux]
    cases hstep : processOneClaim env fc tok N st cd with
    | stop => simpa using h
    | record r st1 =>
      exact ih st1 (acc ++ [r]) (processOneClaim_record_inv env fc tok N st cd r st1 h hstep)

theorem processClaimsAux_length (env : Nat → ApiResp) (fc : String → Option String)
    (tok : String → Nat) (N : Nat) (now : String) :
    ∀ (cds : List ClaimData) (st : EffState) (acc : List ClaimResult),
    (processClaimsAux env fc tok N now st acc cds).verified_claims.length ≤
      acc.length + cds.length := by
  intro cds
  induction cds with
  | nil => intro st acc; simp [processClaimsAux]
  | cons cd rest ih =>
    intro st acc
    simp only [processClaimsAux]
    cases hstep : processOneClaim env fc tok N st cd with
    | stop => simp
    | record r st1 =>
      have h2 := ih st1 (acc ++ [r])
      simp only [List.length_append, List.length_singleton, List.length_cons, List.length_nil] at h2 ⊢
      omega

theorem processClaimsAux_mem (env : Nat → ApiResp) (fc : String → Option String)
    (tok : String → Nat) (N : Nat) (now : String) (P : ClaimResult → Prop)
    (hstep : ∀ st cd r st1, processOneClaim env fc tok N st cd = .record r st1 → P r) :
    ∀ (cds : List ClaimData) (st : EffState) (acc : List ClaimResult),
    (∀ r ∈ acc, P r) →
    ∀ r ∈ (processClaimsAux env fc tok N now st acc cds).verified_claims, P r := by
  intro cds
  induction cds with
  | nil => intro st acc hacc; simpa [processClaimsAux] using hacc
  | cons cd rest ih =>
    intro st acc hacc
    simp only [processClaimsAux]
    cases hrec : processOneClaim env fc tok N st cd with
    | stop => simpa using hacc
    | record r st1 =>
      refine ih st1 (acc ++ [r]) ?_
      intro x hx
      rcases List.mem_append.mp hx with hx | hx
      · exact hacc x hx
      · rcases List.mem_singleton.mp hx with rfl
        exact hstep st cd x st1 hrec

end FactCheck

namespace Main4

theorem search_single_api_fuel_bound (env : Nat → Outcome) (N : Nat) :
    ∀ (fuel : Nat) (st : ApiState) (q : String) (m : Nat), st.count ≤ N →
    (search_single_api_fuel env N fuel st q m).2.count ≤ N := by
  intro fuel
  induction fuel with
  | zero => intro st q m h; exact h
  | succ fuel ih =>
    intro st q m h
    simp only [search_single_api_fuel]
    split
    · exact h
    · rename_i hcond
      have hlt : st.count < N := by simpa using hcond
      split
      · exact h
      · split
        · split
          · exact hlt
          · split
            · split
              · exact ih _ _ _ hlt
              · exact hlt
            · exact hlt
          · split
            · exact ih _ _ _ hlt
            · exact hlt
        · split
          · exact hlt
          · split
            · split
              · exact ih _ _ _ hlt
              · exact hlt
            · exact hlt
          · split
            · exact ih _ _ _ hlt
            · exact hlt

theorem search_single_api_ceiling (env : Nat → Outcome) (N : Nat) (st : ApiState)
    (q : String) (m : Nat) (h : N ≤ st.count) :
    search_single_api env N st q m = (([], "none"), st) := by
  have hn : ¬ st.count < N := by omega
  simp [search_single_api, search_single_api_fuel, hn]

end Main4

namespace Examples

/-- A claim that requires external verification. -/
def extClaim : FactCheck.ClaimData :=
  { claim := "the statement", original_claim := "", search_query := "abc",
    category := "", verification_status := "", confidence := "", explanation := "",
    fact_check_notes := "", potential_impact := "", source_url := "", post_number := "",
    historical_evidence := "", needs_external_verification := some true }

/-- A claim on the knowledge-only path. -/
def knowClaim : FactCheck.ClaimData :=
  { claim := "a historical statement", original_claim := "", search_query := "xyz",
    category := "", verification_status := "", confidence := "", explanation := "",
    fact_check_notes := "", potential_impact := "", source_url := "", post_number := "",
    historical_evidence := "well documented", needs_external_verification := some false }

/-- A malformed claim: no text, no query, flag absent. -/
def emptyClaim : FactCheck.ClaimData :=
  { claim := "", original_claim := "", search_query := "",
    category := "", verification_status := "", confidence := "", explanation := "",
    fact_check_notes := "", potential_impact := "", source_url := "", post_number := "",
    historical_evidence := "", needs_external_verification := none }

/-- A network in which every provider request hard-fails. -/
def envNone : Nat → FactCheck.ApiResp := fun _ => none

/-- A network in which every provider request succeeds with an empty list. -/
def envEmpty : Nat → FactCheck.ApiResp := fun _ => some []

/-- An article fetcher that never finds content. -/
def fcNone : String → Option String := fun _ => none

/-- A trivial token counter. -/
def tok0 : String → Nat := fun _ => 0

end Examples

/-- Claim C1 (Budget exactness): for every claim list and every ceiling `N`,
the total number of provider-search HTTP invocations made during one run of
`process_claims` — the length of the run's search trace, which counts every
per-provider attempt, including fallback and alternative-query attempts —
never exceeds `N`; a `fetch_news_articles` call entered with the counter at
the ceiling returns an empty article list, leaves the counter unchanged and
issues no request; and the same budget discipline holds for main4.py's
`search_single_api`, which at the ceiling returns `([], "none")` untouched. -/
theorem budget_exactness (now : String) (env : Nat → FactCheck.ApiResp)
    (fc : String → Option String) (tok : String → Nat)
    (cds : List FactCheck.ClaimData) (N : Nat) :
    (FactCheck.process_claims now env fc tok cds N).state.searchTrace.length ≤ N
    ∧ (∀ (q : String) (c : Nat), N ≤ c →
        FactCheck.fetch_news_articles env q c N = ⟨[], c, []⟩)
    ∧ (∀ (menv : Nat → Main4.Outcome) (fuel : Nat) (st : Main4.ApiState)
        (q : String) (m : Nat), st.count ≤ N →
        (Main4.search_single_api_fuel menv N fuel st q m).2.count ≤ N)
    ∧ (∀ (menv : Nat → Main4.Outcome) (st : Main4.ApiState) (q : String) (m : Nat),
        N ≤ st.count → Main4.search_single_api menv N st q m = (([], "none"), st)) := by
  refine ⟨?_, ?_, ?_, ?_⟩
  · have h := FactCheck.processClaimsAux_inv env fc tok N now cds
      FactCheck.init_state [] ⟨Nat.zero_le N, rfl⟩
    have h1 := h.1
    have h2 := h.2
    unfold FactCheck.process_claims
    omega
  · intro q c hc
    exact FactCheck.fetch_news_articles_ceiling env q c N hc
  · intro menv fuel st q m h
    exact Main4.search_single_api_fuel_bound menv N fuel st q m h
  · intro menv st q m h
    exact Main4.search_single_api_ceiling menv N st q m h

/-- Witness for C1 at concrete inputs: a two-claim run under ceiling 1 stays
within budget, and a fetch entered at the ceiling returns empty with no
request. -/
theorem budget_exactness_witness :
    (FactCheck.process_claims "t" Examples.envNone Examples.fcNone Examples.tok0
      [Examples.extClaim, Examples.extClaim] 1).state.searchTrace.length ≤ 1
    ∧ FactCheck.fetch_news_articles Examples.envNone "abc" 1 1 = ⟨[], 1, []⟩
    ∧ Main4.search_single_api (fun _ => Main4.Outcome.exn "down") 2
        ⟨2, true, true⟩ "q" 10 = (([], "none"), ⟨2, true, true⟩) :=
  ⟨(budget_exactness "t" Examples.envNone Examples.fcNone Examples.tok0
      [Examples.extClaim, Examples.extClaim] 1).1,
   (budget_exactness "t" Examples.envNone Examples.fcNone Examples.tok0
      [Examples.extClaim, Examples.extClaim] 1).2.1 "abc" 1 (by decide),
   (budget_exactness "t" Examples.envNone Examples.fcNone Examples.tok0
      [Examples.extClaim, Examples.extClaim] 2).2.2.2
      (fun _ => Main4.Outcome.exn "down") ⟨2, true, true⟩ "q" 10 (by decide)⟩

/-- Claim C2 counterexample: two input claims that need external verification,
ceiling 0 — `process_claims` emits no record at all (the loop `break`s),
so the output does not contain one record per input claim, and in particular
no record carrying `skipped_budget_exhausted` exists. -/
theorem budget_skip_counterexample :
    (FactCheck.process_claims "t" Examples.envNone Examples.fcNone Examples.tok0
      [Examples.extClaim, Examples.extClaim] 0).verified_claims = []
    ∧ [Examples.extClaim, Examples.extClaim].length = 2 := ⟨rfl, rfl⟩

/-- Claim C2 amended: once the ceiling is hit, fact_check.py's
`process_claims` stops and drops the remaining claims instead of recording
them: no output record ever carries `verification_result ==
skipped_budget_exhausted` (that tag does not exist in the code), and the
output has at most — not exactly — one record per input claim. -/
theorem budget_skip_amended (now : String) (env : Nat → FactCheck.ApiResp)
    (fc : String → Option String) (tok : String → Nat)
    (cds : List FactCheck.ClaimData) (N : Nat) :
    ((FactCheck.process_claims now env fc tok cds N).verified_claims.all
      (fun r => !(r.verification_result == some "skipped_budget_exhausted")) = true)
    ∧ (FactCheck.process_claims now env fc tok cds N).verified_claims.length ≤ cds.length := by
  constructor
  · rw [List.all_eq_true]
    refine FactCheck.processClaimsAux_mem env fc tok N now
      (fun r => (!(r.verification_result == some "skipped_budget_exhausted")) = true)
      ?_ cds FactCheck.init_state [] (by simp)
    intro st cd r st1 heq
    rcases FactCheck.processOneClaim_record_vr env fc tok N st cd r st1 heq with
      h | h | h | h | h <;> rw [h] <;> decide
  · have h := FactCheck.processClaimsAux_length env fc tok N now cds FactCheck.init_state []
    simpa using h

/-- Claim C6 (Knowledge-path isolation): a claim whose
`needs_external_verification` field is `false` is recorded as
`verified_by_knowledge` with the historical evidence copied in, empty
articles and `total_tokens == 0`, and the effect state is returned unchanged
— the call counter, the provider-search trace and the article-fetch trace
are exactly as before, i.e. zero searches and zero fetches happen. -/
theorem knowledge_path_isolation (env : Nat → FactCheck.ApiResp)
    (fc : String → Option String) (tok : String → Nat) (N : Nat)
    (st : FactCheck.EffState) (cd : FactCheck.ClaimData)
    (h : cd.needs_external_verification = some false) :
    FactCheck.processOneClaim env fc tok N st cd =
      .record { FactCheck.base_claim_result cd false with
        verification_result := some "verified_by_knowledge",
        historical_evidence := some cd.historical_evidence } st
    ∧ (FactCheck.base_claim_result cd false).total_tokens = 0
    ∧ (FactCheck.base_claim_result cd false).articles = [] := by
  refine ⟨?_, rfl, rfl⟩
  simp [FactCheck.processOneClaim, h]

/-- Witness for C6 at a concrete knowledge-path claim and a mid-run state. -/
theorem knowledge_path_isolation_witness :
    FactCheck.processOneClaim Examples.envNone Examples.fcNone Examples.tok0 5
      ⟨2, [("GNews", "x"), ("NewsAPI", "x")], ["u"]⟩ Examples.knowClaim =
      .record { FactCheck.base_claim_result Examples.knowClaim false with
        verification_result := some "verified_by_knowledge",
        historical_evidence := some Examples.knowClaim.historical_evidence }
      ⟨2, [("GNews", "x"), ("NewsAPI", "x")], ["u"]⟩
    ∧ (FactCheck.base_claim_result Examples.knowClaim false).total_tokens = 0
    ∧ (FactCheck.base_claim_result Examples.knowClaim false).articles = [] :=
  knowledge_path_isolation Examples.envNone Examples.fcNone Examples.tok0 5
    ⟨2, [("GNews", "x"), ("NewsAPI", "x")], ["u"]⟩ Examples.knowClaim rfl

/-- Claim C7 counterexample: budget 0 of 10 used, the provider answers 2xx
with an empty article list — `fetch_news_articles` returns after exactly one
GNews request; no fallback request to NewsAPI is issued even though budget
remains (the claim asserted an empty successful result still triggers
provider fallback). -/
theorem empty_result_fallback_counterexample :
    FactCheck.fetch_news_articles Examples.envEmpty "abc" 0 10 =
      ⟨[], 1, [("GNews", "abc")]⟩ := rfl

/-- Claim C7 amended: a 2xx response with an empty article list is final for
the whole search: the same provider is not retried AND no fallback to the
next provider happens — the search returns the empty list immediately after
that single request (fallback only happens on hard failure, i.e. non-2xx or
a request exception). -/
theorem empty_result_fallback_amended (env : Nat → FactCheck.ApiResp)
    (q : String) (c N : Nat) (hlt : c < N) (hresp : env c = some []) :
    FactCheck.fetch_news_articles env q c N =
      ⟨[], c + 1, [("GNews", FactCheck.sanitize_search_query q)]⟩ := by
  unfold FactCheck.fetch_news_articles
  simp [hlt, hresp, FactCheck.make_api_call]

/-- Witness for the amended C7 at a concrete all-empty network. -/
theorem empty_result_fallback_witness :
    FactCheck.fetch_news_articles Examples.envEmpty "modi speech" 3 10 =
      ⟨[], 4, [("GNews", FactCheck.sanitize_search_query "modi speech")]⟩ :=
  empty_result_fallback_amended Examples.envEmpty "modi speech" 3 10 (by decide) rfl

/-- Claim C10: an input claim whose `needs_external_verification` resolves to
true (flag true or absent) but whose claim text and search query are both
empty is appended — budget permitting — as the bare base record: it carries
no `verification_result` field at all, with empty articles and zero
`total_tokens`, and the effect state is unchanged. -/
theorem empty_query_no_status (env : Nat → FactCheck.ApiResp)
    (fc : String → Option String) (tok : String → Nat) (N : Nat)
    (st : FactCheck.EffState) (cd : FactCheck.ClaimData)
    (hneed : cd.needs_external_verification.getD true = true)
    (hclaim : cd.claim = "") (hq : cd.search_query = "")
    (hlt : st.count < N) :
    FactCheck.processOneClaim env fc tok N st cd =
      .record (FactCheck.base_claim_result cd true) st
    ∧ (FactCheck.base_claim_result cd true).verification_result = none
    ∧ (FactCheck.base_claim_result cd true).articles = []
    ∧ (FactCheck.base_claim_result cd true).total_tokens = 0 := by
  refine ⟨?_, rfl, rfl, rfl⟩
  have hceil : ¬ N ≤ st.count := by omega
  simp [FactCheck.processOneClaim, hneed, hceil, hclaim, hq]

/-- Witness for C10 at the concrete malformed claim. -/
theorem empty_query_no_status_witness :
    FactCheck.processOneClaim Examples.envNone Examples.fcNone Examples.tok0 1
      FactCheck.init_state Examples.emptyClaim =
      .record (FactCheck.base_claim_result Examples.emptyClaim true) FactCheck.init_state
    ∧ (FactCheck.base_claim_result Examples.emptyClaim true).verification_result = none
    ∧ (FactCheck.base_claim_result Examples.emptyClaim true).articles = []
    ∧ (FactCheck.base_claim_result Examples.emptyClaim true).total_tokens = 0 :=
  empty_query_no_status Examples.envNone Examples.fcNone Examples.tok0 1
    FactCheck.init_state Examples.emptyClaim rfl rfl rfl (by decide)

/-- Claim C8 (Provider failover): when both providers are available, the
budget allows two attempts, and the primary answers 429 (or 403),
`search_single_api` marks the primary exhausted for the rest of the run,
attempts the secondary within the same call, and the global counter rises by
exactly 2 — one unit per provider attempt — whatever the secondary returns. -/
theorem provider_failover (menv : Nat → Main4.Outcome) (N : Nat)
    (st : Main4.ApiState) (q : String) (m : Nat)
    (hg : st.gnews = true) (hn : st.newsapi = true) (hb : st.count + 1 < N)
    (hresp : menv st.count = .httpError 429 ∨ menv st.count = .httpError 403) :
    (Main4.search_single_api menv N st q m).2.count = st.count + 2
    ∧ (Main4.search_single_api menv N st q m).2.gnews = false
    ∧ (Main4.search_single_api menv N st q m).1.2 = "newsapi" := by
  have hlt1 : st.count < N := by omega
  rcases hresp with hr | hr <;>
    cases ho2 : menv (st.count + 1) with
  | ok raws =>
    refine ⟨?_, ?_, ?_⟩ <;>
      simp [Main4.search_single_api, Main4.search_single_api_fuel,
        Main4.get_available_api, hg, hn, hr, ho2, hlt1, hb]
  | httpError s2 =>
    refine ⟨?_, ?_, ?_⟩ <;>
      simp only [Main4.search_single_api, Main4.search_single_api_fuel,
        Main4.get_available_api, hg, hn, hr, ho2, hlt1, hb] <;>
      simp <;>
      split <;> simp
  | exn msg =>
    refine ⟨?_, ?_, ?_⟩ <;>
      simp [Main4.search_single_api, Main4.search_single_api_fuel,
        Main4.get_available_api, hg, hn, hr, ho2, hlt1, hb]

/-- Witness for C8: both providers fresh, ceiling 2, the primary rate-limited. -/
theorem provider_failover_witness :
    (Main4.search_single_api (fun _ => Main4.Outcome.httpError 429) 2
      ⟨0, true, true⟩ "q" 10).2.count = 0 + 2
    ∧ (Main4.search_single_api (fun _ => Main4.Outcome.httpError 429) 2
      ⟨0, true, true⟩ "q" 10).2.gnews = false
    ∧ (Main4.search_single_api (fun _ => Main4.Outcome.httpError 429) 2
      ⟨0, true, true⟩ "q" 10).1.2 = "newsapi" :=
  provider_failover (fun _ => Main4.Outcome.httpError 429) 2 ⟨0, true, true⟩
    "q" 10 rfl rfl (by decide) (Or.inl rfl)

/-- Claim C3 counterexample: main6.py's extractor checks `LABEL: TRUE`
first, so a response containing `LABEL: FALSE` (with `LABEL: TRUE` also
present) yields "true", not FALSE; and a response with no label pattern
yields "unknown", not UNVERIFIABLE. -/
theorem label_extraction_counterexample :
    Py.containsSub "LABEL: FALSE".data
      (Py.pyUpper ("LABEL: TRUE LABEL: FALSE").data) = true
    ∧ Main6.gemini_extract_label "LABEL: TRUE LABEL: FALSE" = "true"
    ∧ Main6.gemini_extract_label "no label here" = "unknown" := ⟨rfl, rfl, rfl⟩

/-- Claim C3 amended: main6.py's extractor searches case-insensitively for
`LABEL: TRUE`, then `LABEL: FALSE`, then `LABEL: UNVERIFIABLE`, in that
priority order — so `LABEL: FALSE` yields FALSE only when `LABEL: TRUE` is
absent, and a response with no label pattern yields "unknown" (not
UNVERIFIABLE); main5.py's extractor has no label patterns at all and returns
UNVERIFIABLE exactly when none of its bare-word heuristics fires. -/
theorem label_extraction_amended (s t u : String) :
    (Py.containsSub "LABEL: FALSE".data (Py.pyUpper s.data) = true →
     Py.containsSub "LABEL: TRUE".data (Py.pyUpper s.data) = false →
     Main6.gemini_extract_label s = "false")
    ∧ (Py.containsSub "LABEL: TRUE".data (Py.pyUpper t.data) = false →
       Py.containsSub "LABEL: FALSE".data (Py.pyUpper t.data) = false →
       Py.containsSub "LABEL: UNVERIFIABLE".data (Py.pyUpper t.data) = false →
       Main6.gemini_extract_label t = "unknown")
    ∧ (Py.containsSub "false".data (Py.pyLower u.data) = false →
       Py.containsSub "true".data (Py.pyLower u.data) = false →
       Py.containsSub "claim is correct".data (Py.pyLower u.data) = false →
       Py.containsSub "claim is accurate".data (Py.pyLower u.data) = false →
       Py.containsSub "claim is incorrect".data (Py.pyLower u.data) = false →
       Py.containsSub "claim is inaccurate".data (Py.pyLower u.data) = false →
       Py.containsSub "claim is wrong".data (Py.pyLower u.data) = false →
       Py.containsSub "no evidence".data (Py.pyLower u.data) = false →
       Py.containsSub "cannot be verified".data (Py.pyLower u.data) = false →
       Main5.extract_classification u = "UNVERIFIABLE") := by
  refine ⟨?_, ?_, ?_⟩
  · intro h1 h2
    simp only [Main6.gemini_extract_label]
    rw [h1, h2]
    simp
  · intro h1 h2 h3
    simp only [Main6.gemini_extract_label]
    rw [h1, h2, h3]
    simp
  · intro h1 h2 h3 h4 h5 h6 h7 h8 h9
    simp only [Main5.extract_classification]
    rw [h1, h2, h3, h4, h5, h6, h7, h8, h9]
    simp

/-- Witness for the amended C3 at three concrete responses. -/
theorem label_extraction_amended_witness :
    Main6.gemini_extract_label "the verdict is label: false here" = "false"
    ∧ Main6.gemini_extract_label "xyz" = "unknown"
    ∧ Main5.extract_classification "gibberish" = "UNVERIFIABLE" :=
  ⟨(label_extraction_amended "the verdict is label: false here" "xyz" "gibberish").1
      (by decide) (by decide),
   (label_extraction_amended "the verdict is label: false here" "xyz" "gibberish").2.1
      (by decide) (by decide) (by decide),
   (label_extraction_amended "the verdict is label: false here" "xyz" "gibberish").2.2
      (by decide) (by decide) (by decide) (by decide) (by decide)
      (by decide) (by decide) (by decide) (by decide)⟩

/-- Claim C5 counterexample: main4.py's `truncate_text_for_tokens` is not
idempotent — on "aaaaaa ab" with budget 2 it first yields "aaaaaa..." and a
second application yields "aaaaaa....." (it is also not a prefix, since it
appends an ellipsis). -/
theorem truncation_counterexample :
    Main4.truncate_text_for_tokens (Main4.truncate_text_for_tokens "aaaaaa ab" 2) 2 ≠
      Main4.truncate_text_for_tokens "aaaaaa ab" 2 := by decide

/-- When the text already fits the character budget, main6.py's truncation
returns it unchanged. -/
theorem truncate6_of_le (s : String) (n : Nat) (h : s.length ≤ n * 4) :
    Main6.truncate_text_to_tokens s n = s := by
  unfold Main6.truncate_text_to_tokens
  simp [h]

/-- main6.py's truncation never exceeds the character budget. -/
theorem truncate6_length_le (t : String) (n : Nat) :
    (Main6.truncate_text_to_tokens t n).length ≤ n * 4 := by
  simp only [Main6.truncate_text_to_tokens]
  split
  · next h => exact h
  · next h =>
    show (t.data.take (n * 4)).length ≤ n * 4
    simp [List.length_take]

/-- Claim C5 amended: main6.py's `truncate_text_to_tokens` satisfies the
stated contract — idempotent, returns a prefix of its input, the estimated
token count (`count_tokens`, length/4) of the result is at most the budget,
and the empty string maps to itself; main4.py's `truncate_text_for_tokens`
is safe on the empty string but, because it appends "..." after cutting at a
word boundary, it is neither idempotent nor prefix-preserving (see the
counterexample). -/
theorem truncation_amended (t : String) (n : Nat) :
    Main6.truncate_text_to_tokens (Main6.truncate_text_to_tokens t n) n =
      Main6.truncate_text_to_tokens t n
    ∧ t.data.take (Main6.truncate_text_to_tokens t n).length =
        (Main6.truncate_text_to_tokens t n).data
    ∧ Main6.count_tokens (Main6.truncate_text_to_tokens t n) ≤ n
    ∧ Main6.truncate_text_to_tokens "" n = ""
    ∧ Main4.truncate_text_for_tokens "" n = "" := by
  refine ⟨truncate6_of_le _ n (truncate6_length_le t n), ?_, ?_,
    truncate6_of_le "" n (Nat.zero_le _), ?_⟩
  · by_cases h : t.length ≤ n * 4
    · rw [truncate6_of_le t n h]
      exact List.take_length t.data
    · have hval : Main6.truncate_text_to_tokens t n = String.mk (t.data.take (n * 4)) := by
        unfold Main6.truncate_text_to_tokens
        simp [h]
      rw [hval]
      show t.data.take ((t.data.take (n * 4)).length) = t.data.take (n * 4)
      rw [List.length_take, List.take_eq_take]
      omega
  · have h := truncate6_length_le t n
    unfold Main6.count_tokens
    omega
  · have h0 : ("" : String).length ≤ n * 4 := Nat.zero_le _
    unfold Main4.truncate_text_for_tokens
    simp [h0]

/-- Claim C9 (Empty evidence): with an empty article list, both classifiers
return an unverifiable result immediately — fixed label and texts — and the
invocation counter is 0: the generative model is never called. -/
theorem empty_evidence_unverifiable (tok : String → Nat)
    (trunc : String → Nat → String) (llm : String → String → Except String String)
    (gem : String → Main6.GemOutcome) (gemStream : String → Except String String)
    (claim explanation : String) :
    Main5.classify_claim_with_llm tok trunc llm claim explanation [] =
      ({ label := "UNVERIFIABLE",
         llm_response := "No articles available for verification.",
         reasoning := "Cannot verify without source articles." }, 0)
    ∧ Main6.classify_claim_with_gemini gem gemStream claim explanation [] =
      ({ label := "unverifiable",
         explanation := "No articles available to verify this claim.",
         full_response := "No articles available for comparison.",
         tokens_used := none }, 0) := ⟨rfl, rfl⟩

/-- Claim C4 (Idempotent run): when the destination output file already
exists, both pipeline drivers return the existing output path unchanged and
perform no work — the fact-check driver's effect state is `init_state`
(zero searches, zero fetches, counter 0) and the classification driver's
model-invocation count is 0. -/
theorem idempotent_run (fs : String → Bool) (load : String → List FactCheck.ClaimData)
    (load5 : String → Option (List FactCheck.ClaimResult)) (now : String)
    (env : Nat → FactCheck.ApiResp) (fc : String → Option String) (tok : String → Nat)
    (trunc : String → Nat → String) (llm : String → String → Except String String)
    (saveOk modelLoadOk saveOk5 : Bool)
    (jsonPath inputPath modelPath outPath : String) (N : Nat)
    (hout : fs outPath = true) :
    FactCheck.run_fact_checking_process fs load now env fc tok saveOk jsonPath outPath N =
      (some outPath, FactCheck.init_state)
    ∧ Main5.run_llm_classification_process fs load5 tok trunc llm modelLoadOk saveOk5 now
        inputPath modelPath outPath = (some outPath, 0) := by
  constructor
  · simp [FactCheck.run_fact_checking_process, hout]
  · simp [Main5.run_llm_classification_process, hout]

/-- Witness for C4 at a fully concrete configuration with the output file
present. -/
theorem idempotent_run_witness :
    FactCheck.run_fact_checking_process (fun _ => true) (fun _ => []) "t"
      Examples.envNone Examples.fcNone Examples.tok0 true "in.json" "out.json" 5 =
      (some "out.json", FactCheck.init_state)
    ∧ Main5.run_llm_classification_process (fun _ => true) (fun _ => none)
        Examples.tok0 (fun s _ => s) (fun _ _ => Except.error "down") true true "t"
        "results.json" "model.gguf" "out.json" = (some "out.json", 0) :=
  idempotent_run (fun _ => true) (fun _ => []) (fun _ => none) "t" Examples.envNone
    Examples.fcNone Examples.tok0 (fun s _ => s) (fun _ _ => Except.error "down")
    true true true "in.json" "results.json" "model.gguf" "out.json" 5 rfl
